import Mathlib

/-!
Verification development for the VAS stream ingestion and lifecycle
orchestrator (`backend/app`): a shallow embedding of the health monitor
(`app/services/stream_health_monitor.py`), the RTSP pipeline
(`app/services/rtsp_pipeline.py`) and the device stream routes
(`app/routes/devices.py`), together with theorems settling the spec's
claims about them.

Python dictionaries keyed by strings are embedded as association lists
with unique keys (`setK` replaces in place, `popK` removes the key), so
that `len(dict)` corresponds to `List.length`.
-/

/-- Lookup in an association list (python `dict.get(k)` / `k in d`). -/
def lookupK {α : Type} : List (String × α) → String → Option α
  | [], _ => none
  | (k', v) :: t, k => if k' = k then some v else lookupK t k

/-- Lookup with default (python `dict.get(k, d)`). -/
def getK {α : Type} (m : List (String × α)) (k : String) (d : α) : α :=
  (lookupK m k).getD d

/-- Assignment `d[k] = v`: replaces the existing binding in place, else appends. -/
def setK {α : Type} : List (String × α) → String → α → List (String × α)
  | [], k, v => [(k, v)]
  | (k', v') :: t, k, v =>
    if k' = k then (k, v) :: t else (k', v') :: setK t k v

/-- Removal `d.pop(k, None)`. -/
def popK {α : Type} : List (String × α) → String → List (String × α)
  | [], _ => []
  | (k', v') :: t, k => if k' = k then popK t k else (k', v') :: popK t k

/-- Set insertion `s.add(x)` guarded by membership (as in the source's
`if room_id not in self._failed_streams: ... add`). -/
def insertSet (x : String) (s : List String) : List String :=
  if x ∈ s then s else x :: s

/-- Set removal `s.discard(x)`. -/
def discardSet (x : String) (s : List String) : List String :=
  s.filter (fun y => y ≠ x)

-- ### Health monitor state (`StreamHealthMonitor.__init__`)

/-- The mutable dictionaries of `StreamHealthMonitor`: packet counts and
stale counts keyed by producer id, restart attempts and last restart time
keyed by room id, and the set of failed rooms.  Times are naturals. -/
structure HMState where
  lastPacketCounts : List (String × Nat)
  staleCounts : List (String × Nat)
  restartAttempts : List (String × Nat)
  lastRestartTime : List (String × Nat)
  failedStreams : List String
deriving DecidableEq, Repr

/-- The monitor's initial state: all maps empty. -/
def HMState.init : HMState := ⟨[], [], [], [], []⟩

/-- `StreamHealthMonitor.register_stream`. -/
def register_stream (s : HMState) (roomId producerId : String) : HMState :=
  { s with
    lastPacketCounts := setK s.lastPacketCounts producerId 0
    staleCounts := setK s.staleCounts producerId 0
    restartAttempts := setK s.restartAttempts roomId 0
    failedStreams := discardSet roomId s.failedStreams }

/-- `StreamHealthMonitor.unregister_stream`; `producerId = none` embeds the
default argument `producer_id=None`, under which the producer-keyed maps
are not touched. -/
def unregister_stream (s : HMState) (roomId : String)
    (producerId : Option String) : HMState :=
  let s1 := match producerId with
    | some pid =>
      { s with
        lastPacketCounts := popK s.lastPacketCounts pid
        staleCounts := popK s.staleCounts pid }
    | none => s
  { s1 with
    restartAttempts := popK s1.restartAttempts roomId
    lastRestartTime := popK s1.lastRestartTime roomId
    failedStreams := discardSet roomId s1.failedStreams }

/-- `StreamHealthMonitor.mark_stream_healthy`. -/
def mark_stream_healthy (s : HMState) (roomId : String) : HMState :=
  { s with
    restartAttempts := setK s.restartAttempts roomId 0
    failedStreams := discardSet roomId s.failedStreams }

/-- The `monitored_producers` field of `StreamHealthMonitor.get_status`:
`len(self._last_packet_counts)`. -/
def get_status_monitored_producers (s : HMState) : Nat :=
  s.lastPacketCounts.length

-- ### Health check (`StreamHealthMonitor._check_health` loop body)

/-- One element of the `get_all_producer_stats` response. -/
structure HMStat where
  producerId : String
  roomId : String
  packetsReceived : Nat
deriving DecidableEq, Repr

/-- The body of the `for stat in stats_list` loop of `_check_health`,
for one stat: returns the updated state and whether the producer was
classified unhealthy (appended to `unhealthy_streams`, which happens when
the incremented stale count reaches `stale_threshold`).  Empty ids embed
the falsy-id skip (`if not producer_id or not room_id: continue`). -/
def check_health_step (staleThreshold : Nat) (s : HMState) (st : HMStat) :
    HMState × Bool :=
  if st.producerId = "" ∨ st.roomId = "" then (s, false)
  else if st.roomId ∈ s.failedStreams then (s, false)
  else
    match lookupK s.lastPacketCounts st.producerId with
    | none =>
      ({ s with
         lastPacketCounts := setK s.lastPacketCounts st.producerId st.packetsReceived
         staleCounts := setK s.staleCounts st.producerId 0 }, false)
    | some last =>
      if st.packetsReceived > last then
        let s1 := { s with
          lastPacketCounts := setK s.lastPacketCounts st.producerId st.packetsReceived
          staleCounts := setK s.staleCounts st.producerId 0 }
        if getK s.restartAttempts st.roomId 0 > 0 then
          ({ s1 with restartAttempts := setK s1.restartAttempts st.roomId 0 }, false)
        else (s1, false)
      else
        let staleCount := getK s.staleCounts st.producerId 0 + 1
        ({ s with staleCounts := setK s.staleCounts st.producerId staleCount },
         staleCount ≥ staleThreshold)

-- ### Unhealthy-stream handling (`StreamHealthMonitor._handle_unhealthy_stream`)

/-- The cooldown guard of `_handle_unhealthy_stream`: `true` when no last
restart time is recorded for the room, or the elapsed time since it is at
least `restart_cooldown`. -/
def cooldown_passed (restartCooldown : Nat) (s : HMState) (roomId : String)
    (now : Nat) : Bool :=
  match lookupK s.lastRestartTime roomId with
  | none => true
  | some last => !(now - last < restartCooldown)

/-- `_handle_unhealthy_stream` for one unhealthy stream at time `now`:
returns the updated state and whether the restart callback was invoked.
On cooldown it returns unchanged; at the attempt cap it adds the room to
the failed set; otherwise it increments the attempt counter, stamps the
restart time, clears the producer's stale tracking and fires the callback. -/
def handle_unhealthy_stream (restartCooldown maxRestartAttempts : Nat)
    (s : HMState) (roomId producerId : String) (now : Nat) : HMState × Bool :=
  if !cooldown_passed restartCooldown s roomId now then (s, false)
  else
    let attempts := getK s.restartAttempts roomId 0
    if attempts ≥ maxRestartAttempts then
      ({ s with failedStreams := insertSet roomId s.failedStreams }, false)
    else
      ({ s with
         restartAttempts := setK s.restartAttempts roomId (attempts + 1)
         lastRestartTime := setK s.lastRestartTime roomId now
         staleCounts := setK s.staleCounts producerId 0
         lastPacketCounts := popK s.lastPacketCounts producerId }, true)

/-- A sequence of `_handle_unhealthy_stream` invocations for one room at
the given check times, with no intervening recovery or re-registration:
returns the final state and the times at which the restart callback fired. -/
def run_unhealthy_checks (restartCooldown maxRestartAttempts : Nat)
    (s : HMState) (roomId producerId : String) :
    List Nat → HMState × List Nat
  | [] => (s, [])
  | t :: ts =>
    let h :=
      handle_unhealthy_stream restartCooldown maxRestartAttempts s roomId producerId t
    let r :=
      run_unhealthy_checks restartCooldown maxRestartAttempts h.1 roomId producerId ts
    (r.1, if h.2 then t :: r.2 else r.2)

-- ### SSRC capture (`RTSPPipeline.capture_rtp_ssrc`)

/-- Outcome of the single `sock.recvfrom(1500)` call: a timeout, some other
receive error, or a datagram with the given byte values. -/
inductive RecvOutcome where
  | timeout : RecvOutcome
  | recvError : RecvOutcome
  | datagram (data : List Nat) : RecvOutcome
deriving DecidableEq, Repr

/-- Result of `capture_rtp_ssrc`: the SSRC when one was parsed (the source
returns `None` on timeout or short packet, embedded as `none`), plus
whether `sock.close()` ran before returning. -/
structure CaptureResult where
  ssrc : Option Nat
  socketClosed : Bool
deriving DecidableEq, Repr

/-- `struct.unpack(">I", data[8:12])[0]`: bytes 8..11 as a big-endian
unsigned 32-bit integer. -/
def rtp_ssrc_of (data : List Nat) : Nat :=
  data.getD 8 0 * 16777216 + data.getD 9 0 * 65536 +
    data.getD 10 0 * 256 + data.getD 11 0

/-- `RTSPPipeline.capture_rtp_ssrc`, after the socket has been bound to
`127.0.0.1:listenPort` with timeout `timeout`: on a datagram of at least
12 bytes the SSRC is parsed from bytes 8..11 and the socket is closed; on
a shorter datagram, a timeout or a receive error the socket is closed and
`None` is returned.  `listenPort` and `timeout` do not influence the pure
result. -/
def capture_rtp_ssrc (listenPort : Nat) (timeout : Nat)
    (outcome : RecvOutcome) : CaptureResult :=
  match outcome with
  | .timeout => ⟨none, true⟩
  | .recvError => ⟨none, true⟩
  | .datagram data =>
    if data.length ≥ 12 then ⟨some (rtp_ssrc_of data), true⟩
    else ⟨none, true⟩

-- ### Signed SSRC conversion (`RTSPPipeline.start_stream`, command assembly)

/-- The conversion applied before appending `-ssrc` to the FFmpeg command:
`ssrc - 2**32 if ssrc > 2**31 - 1 else ssrc`. -/
def ssrc_signed (ssrc : Nat) : Int :=
  if ssrc > 2147483647 then (ssrc : Int) - 4294967296 else (ssrc : Int)

/-- The value passed as the `-ssrc` argument: the argument is only added
when `ssrc` is truthy (`if ssrc:`), i.e. present and non-zero. -/
def ffmpeg_ssrc_arg (ssrc : Option Nat) : Option Int :=
  match ssrc with
  | none => none
  | some s => if s = 0 then none else some (ssrc_signed s)

-- ### Pipeline start/stop (`RTSPPipeline.start_stream` / `stop_stream`)

/-- The dictionary stored in `active_streams` (or returned as an error).
The success dictionary built by `start_stream` has no `transport_id` key,
which is embedded as `transportId := none`; `stream_info.get("transport_id",
"unknown")` is then `transportId.getD "unknown"`. -/
structure StreamInfo where
  streamId : String
  rtspUrl : String
  status : String
  errorMsg : Option String
  ssrc : Option Nat
  ffmpegSourcePort : Nat
  transportId : Option String
deriving DecidableEq, Repr

/-- `RTSPPipeline.get_ffmpeg_source_port`: `40000 + abs(hash(stream_id)) %
10000`, with the process-wide string hash supplied as `h`. -/
def get_ffmpeg_source_port (h : Nat) : Nat :=
  40000 + h % 10000

/-- In-memory state of `RTSPPipeline`: `active_streams` and the ids with a
tracked entry in `ffmpeg_processes`. -/
structure PipelineState where
  activeStreams : List (String × StreamInfo)
  ffmpegProcs : List String
deriving DecidableEq, Repr

/-- Outcome of the attempt to launch FFmpeg inside `start_stream`'s `try`
block: directory creation failure, spawn failure, or a spawned process that
either exited immediately (with stderr text) or is still running after the
0.5 s check. -/
inductive SpawnOutcome where
  | mkdirFail (msg : String) : SpawnOutcome
  | spawnFail (msg : String) : SpawnOutcome
  | spawned (earlyExit : Option String) : SpawnOutcome
deriving DecidableEq, Repr

/-- `RTSPPipeline.start_stream`.  Every exception inside the `try` block is
caught and turned into a `status = "error"` dictionary, so the embedding is
a total function; the `active_streams` entry is written only by the last
statement of the success path.  When the process spawns and then exits
immediately, the `ffmpeg_processes` entry persists (the source stores the
process before the `returncode` check), but no `active_streams` entry is
made. -/
def pipeline_start_stream (p : PipelineState) (streamId rtspUrl : String)
    (ssrc : Option Nat) (portHash : Nat) (outcome : SpawnOutcome) :
    PipelineState × StreamInfo :=
  match lookupK p.activeStreams streamId with
  | some info => (p, info)
  | none =>
    match outcome with
    | .mkdirFail msg =>
      (p, ⟨streamId, rtspUrl, "error", some msg, none, 0, none⟩)
    | .spawnFail msg =>
      (p, ⟨streamId, rtspUrl, "error", some msg, none, 0, none⟩)
    | .spawned earlyExit =>
      let p1 := { p with ffmpegProcs := insertSet streamId p.ffmpegProcs }
      match earlyExit with
      | some stderrText =>
        (p1, ⟨streamId, rtspUrl, "error",
              some ("FFmpeg failed to start: " ++ stderrText), none, 0, none⟩)
      | none =>
        let info : StreamInfo :=
          ⟨streamId, rtspUrl, "active", none, ssrc,
           get_ffmpeg_source_port portHash, none⟩
        ({ p1 with activeStreams := setK p1.activeStreams streamId info }, info)

-- ### Router state (external media router, observed through `mediasoup_client`)

/-- The router-side objects the orchestrator manipulates: producer ids and
transport ids per room.  The router itself is outside `src/`; this records
the effect of the RPC calls the routes make. -/
structure RouterState where
  producers : List (String × List String)
  transports : List (String × List String)
deriving DecidableEq, Repr

/-- `mediasoup_client.get_producers(room_id)`. -/
def router_get_producers (r : RouterState) (roomId : String) : List String :=
  getK r.producers roomId []

/-- `RTSPPipeline.stop_stream`: terminates and forgets the tracked FFmpeg
process, removes the `active_streams` entry when present, and closes every
router producer of the room (each `close_producer` call; failures there are
swallowed, embedded by the `routerCleanupOk` flag).  Returns `True`
unconditionally. -/
def pipeline_stop_stream (p : PipelineState) (r : RouterState)
    (streamId : String) (routerCleanupOk : Bool) :
    PipelineState × RouterState × Bool :=
  let wasActive := (lookupK p.activeStreams streamId).isSome
  let p1 := { p with ffmpegProcs := discardSet streamId p.ffmpegProcs }
  let p2 := if wasActive
    then { p1 with activeStreams := popK p1.activeStreams streamId }
    else p1
  let r1 := if routerCleanupOk
    then { r with producers := setK r.producers streamId [] }
    else r
  (p2, r1, true)

-- ### Retention prune (`RTSPPipeline._cleanup_old_recordings`)

/-- A filesystem node directly inside a date directory; only regular files
(`os.path.isfile`) contribute to the freed-bytes accounting. -/
structure FsFile where
  name : String
  size : Nat
  isFile : Bool
deriving DecidableEq, Repr

/-- An entry of a device directory: its name, whether it is a directory,
and its direct children. -/
structure DateEntry where
  name : String
  isDir : Bool
  files : List FsFile
deriving DecidableEq, Repr

/-- An entry of the recording root (normally one directory per camera). -/
structure DeviceEntry where
  name : String
  isDir : Bool
  entries : List DateEntry
deriving DecidableEq, Repr

/-- `dir_size`: the sum of sizes of the regular files directly inside a
date directory, computed before deletion. -/
def date_entry_size (e : DateEntry) : Nat :=
  ((e.files.filter (fun f => f.isFile)).map (fun f => f.size)).sum

/-- Numeric value of an ASCII digit character. -/
def dvChar (c : Char) : Nat := c.toNat - 48

/-- The `%m` field of CPython `_strptime` as a two-character token: the
regex alternatives `1[0-2]` and `0[1-9]`. -/
def strptime_month2 (a b : Char) : Option Nat :=
  if a = '1' && ('0' ≤ b && b ≤ '2') then some (10 + dvChar b)
  else if a = '0' && ('1' ≤ b && b ≤ '9') then some (dvChar b)
  else none

/-- The `%m` field as a one-character token: the alternative `[1-9]`. -/
def strptime_month1 (a : Char) : Option Nat :=
  if '1' ≤ a && a ≤ '9' then some (dvChar a) else none

/-- The `%d` field as a two-character token: the regex alternatives
`3[0-1]`, `[1-2]\d`, `0[1-9]` and `<space>[1-9]`. -/
def strptime_day2 (a b : Char) : Option Nat :=
  if a = '3' && ('0' ≤ b && b ≤ '1') then some (30 + dvChar b)
  else if ('1' ≤ a && a ≤ '2') && b.isDigit then some (10 * dvChar a + dvChar b)
  else if a = '0' && ('1' ≤ b && b ≤ '9') then some (dvChar b)
  else if a = ' ' && ('1' ≤ b && b ≤ '9') then some (dvChar b)
  else none

/-- The `%d` field as a one-character token: the alternative `[1-9]`. -/
def strptime_day1 (a : Char) : Option Nat :=
  if '1' ≤ a && a ≤ '9' then some (dvChar a) else none

/-- Gregorian leap year, as `datetime` implements it. -/
def isLeapYear (y : Nat) : Bool :=
  y % 4 = 0 && (y % 100 ≠ 0 || y % 400 = 0)

/-- Length of a month in the proleptic Gregorian calendar. -/
def days_in_month (y m : Nat) : Nat :=
  if m = 2 then (if isLeapYear y then 29 else 28)
  else if m = 4 || m = 6 || m = 9 || m = 11 then 30
  else 31

/-- The `datetime(year, month, day)` construction performed by `strptime`
after the regex match: it raises unless `1 <= year` (and `year <= 9999`,
guaranteed here by the four-digit field) and the day fits the month.  A
parsed date is encoded as `y*10000 + m*100 + d`, an order-embedding of
midnight datetimes into the naturals. -/
def mk_date_key (y m d : Nat) : Option Nat :=
  if 1 ≤ y && d ≤ days_in_month y m then some (y * 10000 + m * 100 + d)
  else none

/-- `datetime.strptime(date_dir, "%Y%m%d")`.  CPython compiles the format
to the regex `(\d\d\d\d)(1[0-2]|0[1-9]|[1-9])(3[0-1]|[1-2]\d|0[1-9]|[1-9]| [1-9])`,
takes the first match (alternatives tried in order, two-digit month/day
forms before one-digit ones) and raises if characters remain unconverted;
since earlier alternatives consume no fewer characters, a name parses
exactly when some month/day token decomposition consumes the whole
remainder, preferring the two-digit month.  The matched fields are then
calendar-validated by the `datetime` constructor.  This definition was
checked against CPython's `strptime` on exhaustive tails over all digits,
the space character and a non-digit for representative years (leap,
century, year 0000), and on random strings of lengths 4-10.  (ASCII
digits; `\d` also matches other Unicode digits, which directory names
written by this system never contain.) -/
def parseYYYYMMDD (s : String) : Option Nat :=
  match s.toList with
  | [y1, y2, y3, y4, a, b] =>
    if y1.isDigit && y2.isDigit && y3.isDigit && y4.isDigit then
      match strptime_month1 a, strptime_day1 b with
      | some m, some d =>
        mk_date_key (dvChar y1 * 1000 + dvChar y2 * 100 + dvChar y3 * 10 + dvChar y4) m d
      | _, _ => none
    else none
  | [y1, y2, y3, y4, a, b, c] =>
    if y1.isDigit && y2.isDigit && y3.isDigit && y4.isDigit then
      match strptime_month2 a b, strptime_day1 c with
      | some m, some d =>
        mk_date_key (dvChar y1 * 1000 + dvChar y2 * 100 + dvChar y3 * 10 + dvChar y4) m d
      | _, _ =>
        match strptime_month1 a, strptime_day2 b c with
        | some m, some d =>
          mk_date_key (dvChar y1 * 1000 + dvChar y2 * 100 + dvChar y3 * 10 + dvChar y4) m d
        | _, _ => none
    else none
  | [y1, y2, y3, y4, a, b, c, d] =>
    if y1.isDigit && y2.isDigit && y3.isDigit && y4.isDigit then
      match strptime_month2 a b, strptime_day2 c d with
      | some m, some dd =>
        mk_date_key (dvChar y1 * 1000 + dvChar y2 * 100 + dvChar y3 * 10 + dvChar y4) m dd
      | _, _ => none
    else none
  | _ => none

/-- The comparison `dir_date < cutoff_date` where `cutoff_date = now -
timedelta(days=retention_days)` is a full datetime: the cutoff is a date
key paired with the remaining seconds-into-day, and the directory's
midnight datetime is strictly older when its date key is smaller, or equal
with a positive time-of-day remainder on the cutoff. -/
def older_than_cutoff (dateKey : Nat) (cutoff : Nat × Nat) : Bool :=
  dateKey < cutoff.1 || (dateKey = cutoff.1 && 0 < cutoff.2)

/-- The inner `for date_dir in os.listdir(device_path)` loop of
`_cleanup_old_recordings`: skips the playlist name, non-directories and
names `strptime` rejects (logged warnings), deletes directories strictly
older than the cutoff, and accumulates the deleted count and freed bytes. -/
def cleanup_date_dirs (cutoff : Nat × Nat) :
    List DateEntry → List DateEntry × Nat × Nat
  | [] => ([], 0, 0)
  | e :: rest =>
    let r := cleanup_date_dirs cutoff rest
    if e.name = "stream.m3u8" then (e :: r.1, r.2.1, r.2.2)
    else if !e.isDir then (e :: r.1, r.2.1, r.2.2)
    else
      match parseYYYYMMDD e.name with
      | none => (e :: r.1, r.2.1, r.2.2)
      | some k =>
        if older_than_cutoff k cutoff then
          (r.1, r.2.1 + 1, r.2.2 + date_entry_size e)
        else (e :: r.1, r.2.1, r.2.2)

/-- `RTSPPipeline._cleanup_old_recordings` over the recording root: device
entries that are not directories are skipped; for each device directory the
date-directory loop runs; the pass returns the surviving tree, the number
of deleted directories and the total bytes freed. -/
def cleanup_old_recordings (cutoff : Nat × Nat) :
    List DeviceEntry → List DeviceEntry × Nat × Nat
  | [] => ([], 0, 0)
  | dev :: rest =>
    let r := cleanup_old_recordings cutoff rest
    if dev.isDir then
      let d := cleanup_date_dirs cutoff dev.entries
      ({ dev with entries := d.1 } :: r.1, d.2.1 + r.2.1, d.2.2 + r.2.2)
    else (dev :: r.1, r.2.1, r.2.2)

/-- The deletion condition as the spec phrases it: a directory entry whose
name parses as a `YYYYMMDD` date strictly older than now minus the
retention period.  Used to compare the source behaviour against the
claim. -/
def spec_should_delete (cutoff : Nat × Nat) (e : DateEntry) : Bool :=
  e.isDir && (match parseYYYYMMDD e.name with
    | some k => older_than_cutoff k cutoff
    | none => false)

-- ### Database rows (`app/models/stream.py`, `app/models/producer.py`)

/-- `StreamState` enum values used by the routes. -/
inductive StreamStateV where
  | initializing | ready | live | error | stopped | closed
deriving DecidableEq, Repr

/-- `ProducerState` enum values. -/
inductive ProducerStateV where
  | active | closed
deriving DecidableEq, Repr

/-- A `Stream` row: id, owning camera, state, and the `stream_metadata`
fields the routes write. -/
structure StreamRow where
  id : String
  cameraId : String
  state : StreamStateV
  metaTransportId : String
  metaProducerId : String
  metaSsrc : Nat
deriving DecidableEq, Repr

/-- A `Producer` row with the columns the routes read and write.  `ssrc` is
optional: the reconnect path copies `stream_info.get("ssrc", 0)` and the
stored stream info's `ssrc` key can hold `None`. -/
structure ProducerRow where
  streamId : String
  mediasoupProducerId : String
  mediasoupTransportId : String
  ssrc : Option Nat
  state : ProducerStateV
deriving DecidableEq, Repr

/-- The relational state the device routes touch. -/
structure DB where
  streams : List StreamRow
  producers : List ProducerRow
deriving DecidableEq, Repr

/-- `select(Stream).where(Stream.camera_id == device_id)` followed by
`scalar_one_or_none()`: the first matching row.  (The source raises when
several rows match; theorems therefore carry an at-most-one hypothesis.) -/
def db_stream_for_camera (db : DB) (cameraId : String) : Option StreamRow :=
  (db.streams.filter (fun s => s.cameraId = cameraId)).head?

/-- Whether an ACTIVE `Producer` row exists for the given stream id
(`scalar_one_or_none` on the ACTIVE filter, used only for presence). -/
def db_has_active_producer (db : DB) (streamId : String) : Bool :=
  db.producers.any (fun pr => pr.streamId = streamId && pr.state = ProducerStateV.active)

-- ### The orchestrator world and the device stream routes (`routes/devices.py`)

/-- The in-process state the start/stop routes read and write. -/
structure World where
  pipeline : PipelineState
  router : RouterState
  monitor : HMState
  db : DB
deriving DecidableEq, Repr

/-- Response body of a successful `start_device_stream` call (the fields
the claims mention). -/
structure StartResponse where
  deviceId : String
  roomId : String
  transportId : String
  producerVideo : String
  reconnect : Bool
  v2StreamId : Option String
deriving DecidableEq, Repr

/-- Result of a `start_device_stream` call: success body or an
`HTTPException` with its status code and error-code string. -/
inductive StartResult where
  | ok (resp : StartResponse)
  | httpError (code : Nat) (errorCode : String)
deriving DecidableEq, Repr

/-- Outcomes of the external calls one `start_device_stream` invocation
makes, in source order.  `createTransport = none` covers both a raising
`create_plain_rtp_transport` and a falsy `transport_info` (the route turns
either into an HTTP error); likewise `createProducer` and `connectOk`. -/
structure StartEnv where
  getProducersRaises : Bool
  routerCleanupOk : Bool
  closeTransportsOk : Bool
  portHash : Nat
  ssrcResult : Option Nat
  spawn : SpawnOutcome
  createTransport : Option String
  oldProducerCleanupOk : Bool
  createProducer : Option String
  connectOk : Bool
  producerReady : Bool
  newStreamRowId : String
deriving DecidableEq, Repr

/-- The full-start path of `start_device_stream` (from the orphan-kill step
onward): close old transports, run SSRC capture and the pipeline launch
concurrently, create the transport, replace the room's producers, connect
the transport, upsert the `Stream` row to LIVE, close old `Producer` rows,
insert the new ACTIVE row and register with the health monitor.  The
`Stream`-row update edits every row of the camera (the source's
`scalar_one_or_none` presumes at most one). -/
def start_stream_full (w : World) (deviceId rtspUrl : String)
    (env : StartEnv) : World × StartResult :=
  let roomId := deviceId
  let router1 := if env.closeTransportsOk
    then { w.router with transports := setK w.router.transports roomId [] }
    else w.router
  let ps := pipeline_start_stream w.pipeline roomId rtspUrl none env.portHash env.spawn
  let pipe1 := ps.1
  let sinfo := ps.2
  let w1 : World := { w with router := router1, pipeline := pipe1 }
  if sinfo.status = "error" then (w1, .httpError 500 "STREAM_START_FAILED")
  else
    let captured := env.ssrcResult.getD 0
    match env.createTransport with
    | none => (w1, .httpError 503 "MEDIASOUP_ERROR")
    | some tid =>
      let router2 := { router1 with
        transports := setK router1.transports roomId
          (getK router1.transports roomId [] ++ [tid]) }
      let router3 := if env.oldProducerCleanupOk
        then { router2 with producers := setK router2.producers roomId [] }
        else router2
      match env.createProducer with
      | none => ({ w1 with router := router3 }, .httpError 503 "MEDIASOUP_ERROR")
      | some pid =>
        let router4 := { router3 with
          producers := setK router3.producers roomId
            (getK router3.producers roomId [] ++ [pid]) }
        if !env.connectOk then
          ({ w1 with router := router4 }, .httpError 503 "MEDIASOUP_ERROR")
        else
          let up : DB × String :=
            match db_stream_for_camera w.db roomId with
            | some vs =>
              ({ w.db with streams := w.db.streams.map (fun s =>
                  if s.cameraId = roomId then
                    { s with
                      state := StreamStateV.live
                      metaTransportId := tid
                      metaProducerId := pid
                      metaSsrc := captured }
                  else s) }, vs.id)
            | none =>
              ({ w.db with streams := w.db.streams ++
                  [⟨env.newStreamRowId, roomId, StreamStateV.live, tid, pid, captured⟩] },
               env.newStreamRowId)
          let db1 := up.1
          let vsId := up.2
          let db2 : DB := { db1 with producers := db1.producers.map (fun pr =>
            if pr.streamId = vsId ∧ pr.state ≠ ProducerStateV.closed then
              { pr with state := ProducerStateV.closed }
            else pr) }
          let db3 : DB := { db2 with producers := db2.producers ++
            [⟨vsId, pid, tid, some captured, ProducerStateV.active⟩] }
          ({ pipeline := pipe1, router := router4,
             monitor := register_stream w.monitor roomId pid, db := db3 },
           .ok ⟨deviceId, roomId, tid, pid, false, some vsId⟩)

/-- `start_device_stream` for an existing device: if the room is already in
`active_streams` and the router reports producers for it, the call
short-circuits — it returns the existing stream info with `reconnect=true`,
creating a missing ACTIVE `Producer` row; if the router query raises, the
stream is stopped and fully restarted; if the router reports no producer,
the full path runs without stopping first. -/
def start_device_stream (w : World) (deviceId rtspUrl : String)
    (env : StartEnv) : World × StartResult :=
  let roomId := deviceId
  match lookupK w.pipeline.activeStreams roomId with
  | some info =>
    if env.getProducersRaises then
      let sr := pipeline_stop_stream w.pipeline w.router roomId env.routerCleanupOk
      start_stream_full { w with pipeline := sr.1, router := sr.2.1 }
        deviceId rtspUrl env
    else
      let prods := router_get_producers w.router roomId
      if prods.isEmpty then start_stream_full w deviceId rtspUrl env
      else
        let vstream := db_stream_for_camera w.db roomId
        let db' := match vstream with
          | some vs =>
            if !db_has_active_producer w.db vs.id then
              { w.db with producers := w.db.producers ++
                [⟨vs.id, prods.getLastD "", info.transportId.getD "unknown",
                  info.ssrc, ProducerStateV.active⟩] }
            else w.db
          | none => w.db
        ({ w with db := db' },
         .ok ⟨deviceId, roomId, info.transportId.getD "unknown",
              prods.getLastD "unknown", true, vstream.map (fun vs => vs.id)⟩)
  | none => start_stream_full w deviceId rtspUrl env

/-- `stop_device_stream` for an existing device: stop the pipeline (always
reported stopped), unregister the room from the health monitor without a
producer id, set the camera's `Stream` rows to STOPPED and cascade its
non-CLOSED `Producer` rows to CLOSED. -/
def stop_device_stream (w : World) (deviceId : String)
    (routerCleanupOk : Bool) : World × Bool :=
  let roomId := deviceId
  let sr := pipeline_stop_stream w.pipeline w.router roomId routerCleanupOk
  let mon' := unregister_stream w.monitor roomId none
  let db' := match db_stream_for_camera w.db roomId with
    | some vs =>
      { streams := w.db.streams.map (fun s =>
          if s.cameraId = roomId then { s with state := StreamStateV.stopped } else s)
        producers := w.db.producers.map (fun pr =>
          if pr.streamId = vs.id ∧ pr.state ≠ ProducerStateV.closed then
            { pr with state := ProducerStateV.closed }
          else pr) }
    | none => w.db
  ({ pipeline := sr.1, router := sr.2.1, monitor := mon', db := db' }, sr.2.2)

-- ### Association-list lemmas

theorem lookupK_setK_self {α : Type} (m : List (String × α)) (k : String) (v : α) :
    lookupK (setK m k v) k = some v := by
  induction m with
  | nil => simp [setK, lookupK]
  | cons hd t ih =>
    obtain ⟨k0, v0⟩ := hd
    by_cases hk : k0 = k
    · simp [setK, hk, lookupK]
    · simp [setK, hk, lookupK, ih]

theorem lookupK_setK_ne {α : Type} (m : List (String × α)) (k k' : String) (v : α)
    (h : k' ≠ k) : lookupK (setK m k v) k' = lookupK m k' := by
  have h' : ¬(k = k') := fun hh => h hh.symm
  induction m with
  | nil => simp [setK, lookupK, h']
  | cons hd t ih =>
    obtain ⟨k0, v0⟩ := hd
    by_cases hk : k0 = k
    · subst hk
      simp [setK, lookupK, h']
    · simp only [setK, hk, if_false, lookupK]
      by_cases hk' : k0 = k'
      · simp [hk']
      · simp [hk', ih]

theorem lookupK_popK_self {α : Type} (m : List (String × α)) (k : String) :
    lookupK (popK m k) k = none := by
  induction m with
  | nil => simp [popK, lookupK]
  | cons hd t ih =>
    obtain ⟨k0, v0⟩ := hd
    by_cases hk : k0 = k
    · simp [popK, hk, ih]
    · simp [popK, hk, lookupK, ih]

theorem lookupK_popK_ne {α : Type} (m : List (String × α)) (k k' : String)
    (h : k' ≠ k) : lookupK (popK m k) k' = lookupK m k' := by
  have h' : ¬(k = k') := fun hh => h hh.symm
  induction m with
  | nil => simp [popK, lookupK]
  | cons hd t ih =>
    obtain ⟨k0, v0⟩ := hd
    by_cases hk : k0 = k
    · subst hk
      simp [popK, lookupK, h', ih]
    · simp [popK, hk, lookupK, ih]

theorem not_mem_discardSet (x : String) (s : List String) :
    x ∉ discardSet x s := by
  simp [discardSet]

-- ### Claim theorems

/-- C10: unregistering a room without a producer id removes the room's
restart-attempt counter, last-restart timestamp and failed mark, leaves the
per-producer packet-count and stale-count maps untouched, and therefore the
`monitored_producers` count of `get_status` is unchanged. -/
theorem c10_unregister_without_producer_frame (s : HMState) (roomId : String) :
    (unregister_stream s roomId none).lastPacketCounts = s.lastPacketCounts ∧
    (unregister_stream s roomId none).staleCounts = s.staleCounts ∧
    lookupK (unregister_stream s roomId none).restartAttempts roomId = none ∧
    lookupK (unregister_stream s roomId none).lastRestartTime roomId = none ∧
    roomId ∉ (unregister_stream s roomId none).failedStreams ∧
    get_status_monitored_producers (unregister_stream s roomId none) =
      get_status_monitored_producers s := by
  refine ⟨rfl, rfl, ?_, ?_, ?_, rfl⟩
  · exact lookupK_popK_self _ _
  · exact lookupK_popK_self _ _
  · exact not_mem_discardSet _ _

/-- C7: for every non-zero 32-bit `ssrc`, the value handed to the FFmpeg
`-ssrc` argument is the two's-complement signed-32-bit reinterpretation of
the unsigned value: unchanged when at most `2^31 - 1`, shifted down by
`2^32` otherwise, always in the signed range and congruent to the unsigned
value modulo `2^32`. -/
theorem c7_ssrc_signed_conversion (ssrc : Nat) (h1 : 0 < ssrc)
    (h2 : ssrc < 4294967296) :
    ffmpeg_ssrc_arg (some ssrc) = some (ssrc_signed ssrc) ∧
    (ssrc ≤ 2147483647 → ssrc_signed ssrc = (ssrc : Int)) ∧
    (2147483647 < ssrc → ssrc_signed ssrc = (ssrc : Int) - 4294967296) ∧
    -2147483648 ≤ ssrc_signed ssrc ∧ ssrc_signed ssrc ≤ 2147483647 ∧
    (ssrc_signed ssrc).emod 4294967296 = ((ssrc : Int)).emod 4294967296 := by
  have hz : ssrc ≠ 0 := by omega
  refine ⟨by simp [ffmpeg_ssrc_arg, hz], ?_, ?_, ?_, ?_, ?_⟩
  · intro hle
    simp only [ssrc_signed]
    rw [if_neg (by omega)]
  · intro hgt
    simp only [ssrc_signed]
    rw [if_pos (by omega)]
  · simp only [ssrc_signed]
    split <;> omega
  · simp only [ssrc_signed]
    split <;> omega
  · simp only [ssrc_signed]
    split
    · exact (Int.emod_eq_sub_self_emod).symm
    · rfl

/-- Witness for C7 at the concrete SSRC 3000000000. -/
theorem c7_witness :
    0 < 3000000000 ∧ 3000000000 < 4294967296 ∧
    (ffmpeg_ssrc_arg (some 3000000000) = some (ssrc_signed 3000000000) ∧
     ((3000000000 : Nat) ≤ 2147483647 → ssrc_signed 3000000000 = (3000000000 : Int)) ∧
     ((2147483647 : Nat) < 3000000000 →
       ssrc_signed 3000000000 = (3000000000 : Int) - 4294967296) ∧
     -2147483648 ≤ ssrc_signed 3000000000 ∧ ssrc_signed 3000000000 ≤ 2147483647 ∧
     (ssrc_signed 3000000000).emod 4294967296 =
       ((3000000000 : Nat) : Int).emod 4294967296) :=
  ⟨by decide, by decide,
   c7_ssrc_signed_conversion 3000000000 (by decide) (by decide)⟩

/-- Bytes of a datagram are below 256, hence so is any indexed byte. -/
theorem byte_getD_lt (data : List Nat) (k : Nat) (hk : k < data.length)
    (hbytes : ∀ b ∈ data, b < 256) : data.getD k 0 < 256 := by
  rw [List.getD_eq_getElem data 0 hk]
  exact hbytes _ (List.getElem_mem hk)

/-- C3: the SSRC capture binds the given local port and then: a datagram of
at least 12 bytes yields the big-endian unsigned 32-bit integer parsed from
bytes 8..11 (a value below `2^32`); a timeout, receive error or short
datagram yields the negative result (embedded as `none`, the source's
`None`); and in every case the socket is closed before returning. -/
theorem c3_ssrc_capture_contract (listenPort timeout : Nat)
    (data shortData : List Nat) (hlen : 12 ≤ data.length)
    (hbytes : ∀ b ∈ data, b < 256) (hshort : shortData.length < 12) :
    (capture_rtp_ssrc listenPort timeout (.datagram data)).ssrc =
        some (rtp_ssrc_of data) ∧
    rtp_ssrc_of data < 4294967296 ∧
    (capture_rtp_ssrc listenPort timeout .timeout).ssrc = none ∧
    (capture_rtp_ssrc listenPort timeout .recvError).ssrc = none ∧
    (capture_rtp_ssrc listenPort timeout (.datagram shortData)).ssrc = none ∧
    (∀ outcome, (capture_rtp_ssrc listenPort timeout outcome).socketClosed = true) := by
  have h8 := byte_getD_lt data 8 (by omega) hbytes
  have h9 := byte_getD_lt data 9 (by omega) hbytes
  have h10 := byte_getD_lt data 10 (by omega) hbytes
  have h11 := byte_getD_lt data 11 (by omega) hbytes
  refine ⟨?_, ?_, rfl, rfl, ?_, ?_⟩
  · simp [capture_rtp_ssrc, hlen]
  · unfold rtp_ssrc_of
    omega
  · simp [capture_rtp_ssrc, Nat.not_le.mpr hshort]
  · intro outcome
    cases outcome with
    | timeout => rfl
    | recvError => rfl
    | datagram d =>
      simp only [capture_rtp_ssrc]
      split <;> rfl

/-- Witness for C3 on a concrete 12-byte datagram with SSRC bytes
`[0xDE, 0xAD, 0xBE, 0xEF]` and a concrete 4-byte short datagram. -/
theorem c3_witness :
    (12 ≤ ([0, 0, 0, 0, 0, 0, 0, 0, 222, 173, 190, 239] : List Nat).length) ∧
    (capture_rtp_ssrc 40001 15000
        (.datagram [0, 0, 0, 0, 0, 0, 0, 0, 222, 173, 190, 239])).ssrc =
      some (rtp_ssrc_of [0, 0, 0, 0, 0, 0, 0, 0, 222, 173, 190, 239]) ∧
    rtp_ssrc_of [0, 0, 0, 0, 0, 0, 0, 0, 222, 173, 190, 239] = 3735928559 ∧
    (capture_rtp_ssrc 40001 15000 .timeout).ssrc = none ∧
    (capture_rtp_ssrc 40001 15000 (.datagram [1, 2, 3, 4])).ssrc = none := by
  have h := c3_ssrc_capture_contract 40001 15000
    [0, 0, 0, 0, 0, 0, 0, 0, 222, 173, 190, 239] [1, 2, 3, 4]
    (by decide) (by decide) (by decide)
  exact ⟨by decide, h.1, by decide, h.2.2.1, h.2.2.2.2.1⟩

/-- C9: the pipeline-level start is total — every internal failure is
caught and returned as a `status = "error"` dictionary carrying the failure
message, and in that case the stream id is absent from `active_streams`
when the call returns.  (The hypothesis that stored entries have status
`"active"` is the source's invariant: the only write to `active_streams`
stores a literal `"status": "active"` dictionary.) -/
theorem c9_pipeline_start_error_total (p : PipelineState)
    (streamId rtspUrl : String) (ssrc : Option Nat) (portHash : Nat)
    (outcome : SpawnOutcome)
    (hInv : ∀ info, lookupK p.activeStreams streamId = some info →
      info.status = "active")
    (hErr : (pipeline_start_stream p streamId rtspUrl ssrc portHash outcome).2.status
      = "error") :
    lookupK (pipeline_start_stream p streamId rtspUrl ssrc portHash
      outcome).1.activeStreams streamId = none ∧
    (pipeline_start_stream p streamId rtspUrl ssrc portHash
      outcome).2.errorMsg.isSome = true := by
  cases hl : lookupK p.activeStreams streamId with
  | some info =>
    have hs := hInv info hl
    simp only [pipeline_start_stream, hl] at hErr
    rw [hs] at hErr
    exact absurd hErr (by decide)
  | none =>
    cases outcome with
    | mkdirFail msg => simp [pipeline_start_stream, hl]
    | spawnFail msg => simp [pipeline_start_stream, hl]
    | spawned earlyExit =>
      cases earlyExit with
      | some stderrText => simp [pipeline_start_stream, hl]
      | none =>
        simp only [pipeline_start_stream, hl] at hErr
        exact absurd hErr (by decide)

/-- Witness for C9: a spawn failure on an empty pipeline state. -/
theorem c9_witness :
    (∀ info, lookupK (PipelineState.mk [] []).activeStreams "cam1" = some info →
      info.status = "active") ∧
    (pipeline_start_stream ⟨[], []⟩ "cam1" "rtsp://cam1" none 7
      (.spawnFail "boom")).2.status = "error" ∧
    lookupK (pipeline_start_stream ⟨[], []⟩ "cam1" "rtsp://cam1" none 7
      (.spawnFail "boom")).1.activeStreams "cam1" = none ∧
    (pipeline_start_stream ⟨[], []⟩ "cam1" "rtsp://cam1" none 7
      (.spawnFail "boom")).2.errorMsg.isSome = true := by
  refine ⟨fun info h => by simp [lookupK] at h, by decide, ?_⟩
  exact c9_pipeline_start_error_total ⟨[], []⟩ "cam1" "rtsp://cam1" none 7
    (.spawnFail "boom") (fun info h => by simp [lookupK] at h) (by decide)

/-- C5 (amended): staleness classification for a stat with well-formed ids
whose room is not in the failed set.  A previously unseen producer only has
its packet count recorded (with a zero stale counter) and is not classified
unhealthy; a tracked producer with strictly increasing packets has its
stale counter reset and, exactly when the room's attempt counter was
non-zero, that counter reset; otherwise the stale counter is incremented by
one and the producer is classified unhealthy exactly when the incremented
counter reaches `stale_threshold`. -/
theorem c5_staleness_classification (staleThreshold : Nat) (s : HMState)
    (st : HMStat) (hpid : st.producerId ≠ "") (hrid : st.roomId ≠ "")
    (hfail : st.roomId ∉ s.failedStreams) :
    (lookupK s.lastPacketCounts st.producerId = none →
      check_health_step staleThreshold s st =
        ({ s with
           lastPacketCounts := setK s.lastPacketCounts st.producerId st.packetsReceived
           staleCounts := setK s.staleCounts st.producerId 0 }, false)) ∧
    (∀ last, lookupK s.lastPacketCounts st.producerId = some last →
      last < st.packetsReceived →
        (check_health_step staleThreshold s st).2 = false ∧
        lookupK (check_health_step staleThreshold s st).1.staleCounts
          st.producerId = some 0 ∧
        lookupK (check_health_step staleThreshold s st).1.lastPacketCounts
          st.producerId = some st.packetsReceived ∧
        (0 < getK s.restartAttempts st.roomId 0 →
          lookupK (check_health_step staleThreshold s st).1.restartAttempts
            st.roomId = some 0) ∧
        (getK s.restartAttempts st.roomId 0 = 0 →
          (check_health_step staleThreshold s st).1.restartAttempts =
            s.restartAttempts)) ∧
    (∀ last, lookupK s.lastPacketCounts st.producerId = some last →
      st.packetsReceived ≤ last →
        lookupK (check_health_step staleThreshold s st).1.staleCounts
            st.producerId = some (getK s.staleCounts st.producerId 0 + 1) ∧
        ((check_health_step staleThreshold s st).2 = true ↔
          staleThreshold ≤ getK s.staleCounts st.producerId 0 + 1)) := by
  have hids : ¬(st.producerId = "" ∨ st.roomId = "") := by
    simp [hpid, hrid]
  refine ⟨?_, ?_, ?_⟩
  · intro hnone
    simp [check_health_step, hids, hfail, hnone]
  · intro last hsome hlt
    simp only [check_health_step, if_neg hids, if_neg hfail, hsome]
    rw [if_pos hlt]
    by_cases hatt : getK s.restartAttempts st.roomId 0 > 0
    · rw [if_pos hatt]
      refine ⟨rfl, lookupK_setK_self _ _ _, lookupK_setK_self _ _ _, ?_, ?_⟩
      · intro _
        exact lookupK_setK_self _ _ _
      · intro h0
        omega
    · rw [if_neg hatt]
      refine ⟨rfl, lookupK_setK_self _ _ _, lookupK_setK_self _ _ _, ?_, ?_⟩
      · intro h0
        omega
      · intro _
        rfl
  · intro last hsome hle
    simp only [check_health_step, if_neg hids, if_neg hfail, hsome]
    rw [if_neg (by omega)]
    refine ⟨lookupK_setK_self _ _ _, ?_⟩
    simp [ge_iff_le]

/-- Witness for C5 at a concrete tracked producer in a healthy room. -/
theorem c5_witness :
    ("p1" : String) ≠ "" ∧ ("r1" : String) ≠ "" ∧
    ("r1" : String) ∉ (HMState.mk [("p1", 5)] [("p1", 1)] [("r1", 2)] [] []).failedStreams ∧
    (∀ last,
      lookupK (HMState.mk [("p1", 5)] [("p1", 1)] [("r1", 2)] [] []).lastPacketCounts
        "p1" = some last →
      last < (HMStat.mk "p1" "r1" 9).packetsReceived →
        (check_health_step 3 ⟨[("p1", 5)], [("p1", 1)], [("r1", 2)], [], []⟩
          ⟨"p1", "r1", 9⟩).2 = false ∧
        lookupK (check_health_step 3 ⟨[("p1", 5)], [("p1", 1)], [("r1", 2)], [], []⟩
          ⟨"p1", "r1", 9⟩).1.staleCounts "p1" = some 0 ∧
        lookupK (check_health_step 3 ⟨[("p1", 5)], [("p1", 1)], [("r1", 2)], [], []⟩
          ⟨"p1", "r1", 9⟩).1.lastPacketCounts "p1" = some 9 ∧
        (0 < getK (HMState.mk [("p1", 5)] [("p1", 1)] [("r1", 2)] [] []).restartAttempts
            "r1" 0 →
          lookupK (check_health_step 3 ⟨[("p1", 5)], [("p1", 1)], [("r1", 2)], [], []⟩
            ⟨"p1", "r1", 9⟩).1.restartAttempts "r1" = some 0) ∧
        (getK (HMState.mk [("p1", 5)] [("p1", 1)] [("r1", 2)] [] []).restartAttempts
            "r1" 0 = 0 →
          (check_health_step 3 ⟨[("p1", 5)], [("p1", 1)], [("r1", 2)], [], []⟩
            ⟨"p1", "r1", 9⟩).1.restartAttempts =
            (HMState.mk [("p1", 5)] [("p1", 1)] [("r1", 2)] [] []).restartAttempts)) := by
  refine ⟨by decide, by decide, by decide, ?_⟩
  exact (c5_staleness_classification 3 ⟨[("p1", 5)], [("p1", 1)], [("r1", 2)], [], []⟩
    ⟨"p1", "r1", 9⟩ (by decide) (by decide) (by decide)).2.1

/-- Counterexample for C5 as stated: producer `"p1"` is already tracked
(`last_packet_counts` holds 5) and its stat reports 5 packets again, so the
claim requires its stale counter to be incremented from 0 to 1 — but the
room `"r1"` is in the failed set, the source `continue`s before the
tracked-producer logic, and the state is returned entirely unchanged. -/
theorem c5_counterexample :
    lookupK (HMState.mk [("p1", 5)] [("p1", 0)] [] [] ["r1"]).lastPacketCounts
      "p1" = some 5 ∧
    check_health_step 3 ⟨[("p1", 5)], [("p1", 0)], [], [], ["r1"]⟩ ⟨"p1", "r1", 5⟩ =
      (⟨[("p1", 5)], [("p1", 0)], [], [], ["r1"]⟩, false) ∧
    lookupK (check_health_step 3 ⟨[("p1", 5)], [("p1", 0)], [], [], ["r1"]⟩
      ⟨"p1", "r1", 5⟩).1.staleCounts "p1" ≠ some 1 := by
  refine ⟨by decide, by decide, by decide⟩

/-- The playlist name never parses as a date. -/
theorem parse_playlist_none : parseYYYYMMDD "stream.m3u8" = none := by decide

/-- The date-directory loop keeps exactly the entries the spec predicate
does not delete, and frees exactly the sizes of the deleted ones. -/
theorem cleanup_date_dirs_filter (cutoff : Nat × Nat) (es : List DateEntry) :
    (cleanup_date_dirs cutoff es).1 =
      es.filter (fun e => !spec_should_delete cutoff e) ∧
    (cleanup_date_dirs cutoff es).2.2 =
      ((es.filter (fun e => spec_should_delete cutoff e)).map date_entry_size).sum := by
  induction es with
  | nil => exact ⟨rfl, rfl⟩
  | cons e rest ih =>
    obtain ⟨ih1, ih2⟩ := ih
    by_cases hpl : e.name = "stream.m3u8"
    · have hspec : spec_should_delete cutoff e = false := by
        simp [spec_should_delete, hpl, parse_playlist_none]
      simp only [cleanup_date_dirs, if_pos hpl, List.filter_cons, hspec,
        Bool.not_false, if_true]
      exact ⟨by rw [ih1], by simpa using ih2⟩
    · by_cases hdir : e.isDir
      · cases hparse : parseYYYYMMDD e.name with
        | none =>
          have hspec : spec_should_delete cutoff e = false := by
            simp [spec_should_delete, hparse]
          simp only [cleanup_date_dirs, if_neg hpl, hdir, Bool.not_true,
            Bool.false_eq_true, if_false, hparse, List.filter_cons, hspec,
            Bool.not_false, if_true]
          exact ⟨by rw [ih1], by simpa using ih2⟩
        | some k =>
          have hspec : spec_should_delete cutoff e = older_than_cutoff k cutoff := by
            simp [spec_should_delete, hparse, hdir]
          by_cases hold : older_than_cutoff k cutoff
          · simp only [cleanup_date_dirs, if_neg hpl, hdir, Bool.not_true,
              Bool.false_eq_true, if_false, hparse, if_pos hold,
              List.filter_cons, hspec, hold, Bool.not_true, if_false]
            refine ⟨ih1, ?_⟩
            simp only [if_true, List.map_cons, List.sum_cons]
            omega
          · have hold' : older_than_cutoff k cutoff = false := by
              simpa using hold
            simp only [cleanup_date_dirs, if_neg hpl, hdir, Bool.not_true,
              Bool.false_eq_true, if_false, hparse, hold', List.filter_cons,
              hspec, Bool.not_false, if_true, Bool.false_eq_true, if_false]
            exact ⟨by rw [ih1], by simpa using ih2⟩
      · have hspec : spec_should_delete cutoff e = false := by
          simp [spec_should_delete, hdir]
        have hdir' : e.isDir = false := by simpa using hdir
        simp only [cleanup_date_dirs, if_neg hpl, hdir', Bool.not_false,
          if_true, List.filter_cons, hspec, Bool.not_false]
        exact ⟨by rw [ih1], by simpa using ih2⟩

/-- C8: the time-based prune deletes a date directory exactly when its name
parses as a `YYYYMMDD` date strictly older than now minus the retention
period: the surviving tree is the original with exactly those entries
filtered out of each device directory (all other entries — files such as
the playlist, non-directories, and directories with malformed names — are
kept and the pass completes over the whole tree), the reported freed bytes
are the total size of the deleted directories, and an entry named
`stream.m3u8` is never deleted. -/
theorem c8_retention_prune (cutoff : Nat × Nat) (root : List DeviceEntry) :
    (cleanup_old_recordings cutoff root).1 =
      root.map (fun dev =>
        if dev.isDir then
          { dev with entries :=
              dev.entries.filter (fun e => !spec_should_delete cutoff e) }
        else dev) ∧
    (cleanup_old_recordings cutoff root).2.2 =
      ((root.filter (fun dev => dev.isDir)).map (fun dev =>
        ((dev.entries.filter (fun e => spec_should_delete cutoff e)).map
          date_entry_size).sum)).sum ∧
    (∀ (b : Bool) (fs : List FsFile),
      spec_should_delete cutoff ⟨"stream.m3u8", b, fs⟩ = false) := by
  refine ⟨?_, ?_, ?_⟩
  · induction root with
    | nil => rfl
    | cons dev rest ih =>
      by_cases hdir : dev.isDir
      · simp only [cleanup_old_recordings, hdir, if_true, List.map_cons]
        rw [ih, (cleanup_date_dirs_filter cutoff dev.entries).1]
      · have hdir' : dev.isDir = false := by simpa using hdir
        simp only [cleanup_old_recordings, hdir', Bool.false_eq_true, if_false,
          List.map_cons]
        rw [ih]
  · induction root with
    | nil => rfl
    | cons dev rest ih =>
      by_cases hdir : dev.isDir
      · simp only [cleanup_old_recordings, hdir, if_true, List.filter_cons,
          List.map_cons, List.sum_cons]
        rw [ih, (cleanup_date_dirs_filter cutoff dev.entries).2]
      · have hdir' : dev.isDir = false := by simpa using hdir
        simp only [cleanup_old_recordings, hdir', Bool.false_eq_true, if_false,
          List.filter_cons]
        exact ih
  · intro b fs
    simp [spec_should_delete, parse_playlist_none]

/-- Reading back the key just set. -/
theorem getK_setK_self {α : Type} (m : List (String × α)) (k : String)
    (v d : α) : getK (setK m k v) k d = v := by
  rw [getK, lookupK_setK_self]
  rfl

/-- When the restart callback fires, the cooldown had passed, the attempt
counter was below the cap, the counter is incremented and the restart time
stamped. -/
theorem handle_fired_facts (cd mx : Nat) (s : HMState) (room pid : String)
    (now : Nat) (h : (handle_unhealthy_stream cd mx s room pid now).2 = true) :
    cooldown_passed cd s room now = true ∧
    getK s.restartAttempts room 0 < mx ∧
    (handle_unhealthy_stream cd mx s room pid now).1.restartAttempts =
      setK s.restartAttempts room (getK s.restartAttempts room 0 + 1) ∧
    (handle_unhealthy_stream cd mx s room pid now).1.lastRestartTime =
      setK s.lastRestartTime room now := by
  by_cases hcool : cooldown_passed cd s room now
  · by_cases hcap : mx ≤ getK s.restartAttempts room 0
    · exfalso
      simp [handle_unhealthy_stream, hcool, hcap] at h
    · refine ⟨hcool, by omega, ?_, ?_⟩ <;>
        simp [handle_unhealthy_stream, hcool, hcap]
  · exfalso
    simp [handle_unhealthy_stream, hcool] at h

/-- When the callback does not fire, neither the attempt counter nor the
restart-time map changes. -/
theorem handle_not_fired_frame (cd mx : Nat) (s : HMState) (room pid : String)
    (now : Nat) (h : (handle_unhealthy_stream cd mx s room pid now).2 = false) :
    (handle_unhealthy_stream cd mx s room pid now).1.restartAttempts =
      s.restartAttempts ∧
    (handle_unhealthy_stream cd mx s room pid now).1.lastRestartTime =
      s.lastRestartTime := by
  by_cases hcool : cooldown_passed cd s room now
  · by_cases hcap : mx ≤ getK s.restartAttempts room 0
    · constructor <;> simp [handle_unhealthy_stream, hcool, hcap]
    · exfalso
      simp [handle_unhealthy_stream, hcool, hcap] at h
  · constructor <;> simp [handle_unhealthy_stream, hcool]

/-- Along any sequence of unhealthy-stream handlings for one room (no
intervening recovery), the room's attempt counter grows by exactly the
number of callback invocations, and that number is at most the headroom
below the cap. -/
theorem run_unhealthy_count (cd mx : Nat) (room pid : String)
    (times : List Nat) :
    ∀ s : HMState,
      getK (run_unhealthy_checks cd mx s room pid times).1.restartAttempts room 0 =
        getK s.restartAttempts room 0 +
          (run_unhealthy_checks cd mx s room pid times).2.length ∧
      (run_unhealthy_checks cd mx s room pid times).2.length ≤
        mx - getK s.restartAttempts room 0 := by
  induction times with
  | nil =>
    intro s
    exact ⟨by simp [run_unhealthy_checks], by simp [run_unhealthy_checks]⟩
  | cons t ts ih =>
    intro s
    simp only [run_unhealthy_checks]
    cases hf : (handle_unhealthy_stream cd mx s room pid t).2 with
    | false =>
      obtain ⟨hA, _⟩ := handle_not_fired_frame cd mx s room pid t hf
      obtain ⟨ih1, ih2⟩ := ih (handle_unhealthy_stream cd mx s room pid t).1
      rw [hA] at ih1 ih2
      rw [if_neg (by decide)]
      exact ⟨ih1, ih2⟩
    | true =>
      obtain ⟨_, hlt, hA, _⟩ := handle_fired_facts cd mx s room pid t hf
      obtain ⟨ih1, ih2⟩ := ih (handle_unhealthy_stream cd mx s room pid t).1
      rw [hA, getK_setK_self] at ih1 ih2
      rw [if_pos rfl]
      constructor
      · rw [List.length_cons, ih1]
        omega
      · rw [List.length_cons]
        omega

/-- Along any sequence of unhealthy-stream handlings with a positive
cooldown, consecutive callback invocations (including one recorded before
the sequence starts) are separated by at least the cooldown. -/
theorem run_unhealthy_chain (cd mx : Nat) (room pid : String) (hcd : 0 < cd)
    (times : List Nat) :
    ∀ s : HMState,
      List.Chain' (fun a b => a + cd ≤ b)
        ((lookupK s.lastRestartTime room).toList ++
          (run_unhealthy_checks cd mx s room pid times).2) := by
  induction times with
  | nil =>
    intro s
    simp only [run_unhealthy_checks, List.append_nil]
    cases lookupK s.lastRestartTime room <;> simp
  | cons t ts ih =>
    intro s
    simp only [run_unhealthy_checks]
    cases hf : (handle_unhealthy_stream cd mx s room pid t).2 with
    | false =>
      obtain ⟨_, hT⟩ := handle_not_fired_frame cd mx s room pid t hf
      have hih := ih (handle_unhealthy_stream cd mx s room pid t).1
      rw [hT] at hih
      rw [if_neg (by decide)]
      exact hih
    | true =>
      obtain ⟨hcool, _, _, hT⟩ := handle_fired_facts cd mx s room pid t hf
      have hih := ih (handle_unhealthy_stream cd mx s room pid t).1
      rw [hT, lookupK_setK_self] at hih
      rw [if_pos rfl]
      cases hl : lookupK s.lastRestartTime room with
      | none =>
        simpa using hih
      | some l =>
        have hgap : l + cd ≤ t := by
          have h0 : (!decide (t - l < cd)) = true := by
            have h1 := hcool
            rw [cooldown_passed, hl] at h1
            exact h1
          have h2 : ¬(t - l < cd) := by simpa using h0
          omega
        have hih' : List.Chain' (fun a b => a + cd ≤ b)
            (t :: (run_unhealthy_checks cd mx
              (handle_unhealthy_stream cd mx s room pid t).1 room pid ts).2) := by
          simpa using hih
        have hgoal : List.Chain' (fun a b => a + cd ≤ b)
            (l :: t :: (run_unhealthy_checks cd mx
              (handle_unhealthy_stream cd mx s room pid t).1 room pid ts).2) :=
          List.chain'_cons.mpr ⟨hgap, hih'⟩
        simpa using hgoal

/-- C4: restart discipline of the health monitor.  Along any sequence of
unhealthy-stream handlings for a room whose attempt counter starts at zero
and is never reset (no intervening recovery, re-registration or
mark-healthy), the restart callback fires at most `max_restart_attempts`
times; with a positive cooldown, consecutive firings (including one
recorded before the sequence) are at least `restart_cooldown` apart; and a
handling that passes the cooldown check while the attempt counter has
reached the cap adds the room to the failed set and does not invoke the
callback. -/
theorem c4_restart_discipline (cd mx : Nat) (room pid : String)
    (times : List Nat) (s s2 : HMState) (now2 : Nat)
    (hcd : 0 < cd)
    (h0 : getK s.restartAttempts room 0 = 0)
    (hcool2 : cooldown_passed cd s2 room now2 = true)
    (hcap2 : mx ≤ getK s2.restartAttempts room 0) :
    (run_unhealthy_checks cd mx s room pid times).2.length ≤ mx ∧
    List.Chain' (fun a b => a + cd ≤ b)
      ((lookupK s.lastRestartTime room).toList ++
        (run_unhealthy_checks cd mx s room pid times).2) ∧
    handle_unhealthy_stream cd mx s2 room pid now2 =
      ({ s2 with failedStreams := insertSet room s2.failedStreams }, false) := by
  refine ⟨?_, run_unhealthy_chain cd mx room pid hcd times s, ?_⟩
  · have h := (run_unhealthy_count cd mx room pid times s).2
    omega
  · simp [handle_unhealthy_stream, hcool2, hcap2]

/-- Witness for C4 with the source defaults `restart_cooldown = 30`,
`max_restart_attempts = 3`, five stale checks 10 seconds apart and a capped
room. -/
theorem c4_witness :
    0 < 30 ∧
    getK (HMState.mk [] [] [("r1", 0)] [] []).restartAttempts "r1" 0 = 0 ∧
    cooldown_passed 30 ⟨[], [], [("r1", 3)], [], []⟩ "r1" 500 = true ∧
    3 ≤ getK (HMState.mk [] [] [("r1", 3)] [] []).restartAttempts "r1" 0 ∧
    ((run_unhealthy_checks 30 3 ⟨[], [], [("r1", 0)], [], []⟩ "r1" "p1"
        [100, 110, 120, 130, 140]).2.length ≤ 3 ∧
     List.Chain' (fun a b => a + 30 ≤ b)
       ((lookupK (HMState.mk [] [] [("r1", 0)] [] []).lastRestartTime "r1").toList ++
         (run_unhealthy_checks 30 3 ⟨[], [], [("r1", 0)], [], []⟩ "r1" "p1"
           [100, 110, 120, 130, 140]).2) ∧
     handle_unhealthy_stream 30 3 ⟨[], [], [("r1", 3)], [], []⟩ "r1" "p1" 500 =
       ({ HMState.mk [] [] [("r1", 3)] [] [] with
          failedStreams := insertSet "r1" [] }, false)) :=
  ⟨by decide, by decide, by decide, by decide,
   c4_restart_discipline 30 3 "r1" "p1" [100, 110, 120, 130, 140]
     ⟨[], [], [("r1", 0)], [], []⟩ ⟨[], [], [("r1", 3)], [], []⟩ 500
     (by decide) (by decide) (by decide) (by decide)⟩

/-- A list of length at most one has equal members. -/
theorem eq_of_mem_of_length_le_one {α : Type} {l : List α} (h : l.length ≤ 1)
    {a b : α} (ha : a ∈ l) (hb : b ∈ l) : a = b := by
  cases l with
  | nil => cases ha
  | cons x t =>
    have ht : t = [] := by
      cases t with
      | nil => rfl
      | cons y u => simp at h
    subst ht
    rw [List.mem_singleton] at ha hb
    rw [ha, hb]

/-- When no stream row matches the camera, no member of the table does. -/
theorem db_stream_for_camera_none {db : DB} {cameraId : String}
    (h : db_stream_for_camera db cameraId = none) :
    ∀ srow ∈ db.streams, srow.cameraId ≠ cameraId := by
  intro srow hmem heq
  rw [db_stream_for_camera, List.head?_eq_none_iff] at h
  have : srow ∈ db.streams.filter (fun s => s.cameraId = cameraId) :=
    List.mem_filter.mpr ⟨hmem, by simp [heq]⟩
  rw [h] at this
  cases this

/-- The row `db_stream_for_camera` returns is a member of the filtered
table. -/
theorem db_stream_for_camera_mem {db : DB} {cameraId : String} {vs : StreamRow}
    (h : db_stream_for_camera db cameraId = some vs) :
    vs ∈ db.streams.filter (fun s => s.cameraId = cameraId) := by
  rw [db_stream_for_camera] at h
  exact List.mem_of_mem_head? h

/-- C6 (amended): after `stop_device_stream` for a camera with at most one
stream row, every stream row of the camera is STOPPED, every producer row
of that stream is CLOSED, the active-stream registry has no entry for the
camera, and the health monitor has no room-keyed entry for it (attempt
counter, restart timestamp, failed mark) — while its producer-keyed
packet-count and stale-count maps are left exactly as they were, because
the route unregisters without a producer id. -/
theorem c6_stop_postcondition (w : World) (deviceId : String) (rcOk : Bool)
    (hUnique : (w.db.streams.filter (fun srow => srow.cameraId = deviceId)).length ≤ 1) :
    (∀ srow ∈ (stop_device_stream w deviceId rcOk).1.db.streams,
      srow.cameraId = deviceId → srow.state = StreamStateV.stopped) ∧
    (∀ srow ∈ (stop_device_stream w deviceId rcOk).1.db.streams,
      srow.cameraId = deviceId →
        ∀ pr ∈ (stop_device_stream w deviceId rcOk).1.db.producers,
          pr.streamId = srow.id → pr.state = ProducerStateV.closed) ∧
    lookupK (stop_device_stream w deviceId rcOk).1.pipeline.activeStreams
      deviceId = none ∧
    lookupK (stop_device_stream w deviceId rcOk).1.monitor.restartAttempts
      deviceId = none ∧
    lookupK (stop_device_stream w deviceId rcOk).1.monitor.lastRestartTime
      deviceId = none ∧
    deviceId ∉ (stop_device_stream w deviceId rcOk).1.monitor.failedStreams ∧
    (stop_device_stream w deviceId rcOk).1.monitor.lastPacketCounts =
      w.monitor.lastPacketCounts ∧
    (stop_device_stream w deviceId rcOk).1.monitor.staleCounts =
      w.monitor.staleCounts := by
  have hpipe : lookupK (stop_device_stream w deviceId rcOk).1.pipeline.activeStreams
      deviceId = none := by
    simp only [stop_device_stream, pipeline_stop_stream]
    cases hl : lookupK w.pipeline.activeStreams deviceId with
    | none => simpa [hl] using hl
    | some info => simp [hl, lookupK_popK_self]
  refine ⟨?_, ?_, hpipe, ?_, ?_, ?_, rfl, rfl⟩
  · intro srow hmem heq
    simp only [stop_device_stream] at hmem
    cases hvs : db_stream_for_camera w.db deviceId with
    | none =>
      rw [hvs] at hmem
      exact absurd heq (db_stream_for_camera_none hvs srow hmem)
    | some vs =>
      rw [hvs] at hmem
      simp only [List.mem_map] at hmem
      obtain ⟨x, hx, hxe⟩ := hmem
      by_cases hc : x.cameraId = deviceId
      · rw [if_pos hc] at hxe
        rw [← hxe]
      · rw [if_neg hc] at hxe
        rw [← hxe] at heq
        exact absurd heq hc
  · intro srow hmem heq pr hpr hid
    simp only [stop_device_stream] at hmem hpr
    cases hvs : db_stream_for_camera w.db deviceId with
    | none =>
      rw [hvs] at hmem
      exact absurd heq (db_stream_for_camera_none hvs srow hmem)
    | some vs =>
      rw [hvs] at hmem hpr
      simp only [List.mem_map] at hmem hpr
      obtain ⟨x, hx, hxe⟩ := hmem
      have hxcam : x.cameraId = deviceId := by
        by_cases hc : x.cameraId = deviceId
        · exact hc
        · rw [if_neg hc] at hxe
          rw [← hxe] at heq
          exact absurd heq hc
      have hxv : x = vs := by
        refine eq_of_mem_of_length_le_one hUnique ?_ (db_stream_for_camera_mem hvs)
        exact List.mem_filter.mpr ⟨hx, by simp [hxcam]⟩
      have hsid : srow.id = vs.id := by
        rw [if_pos hxcam] at hxe
        rw [← hxe, hxv]
      obtain ⟨y, hy, hye⟩ := hpr
      by_cases hcond : y.streamId = vs.id ∧ y.state ≠ ProducerStateV.closed
      · rw [if_pos hcond] at hye
        rw [← hye]
      · rw [if_neg hcond] at hye
        rw [← hye] at hid
        rw [hsid] at hid
        rcases not_and_or.mp hcond with hns | hcl
        · exact absurd hid hns
        · rw [← hye]
          exact not_not.mp hcl
  · exact lookupK_popK_self _ _
  · exact lookupK_popK_self _ _
  · exact not_mem_discardSet _ _

/-- Witness for C6 on a concrete world holding one LIVE stream, one ACTIVE
producer row and an active session for camera `"d1"`. -/
theorem c6_witness :
    ((World.mk ⟨[("d1", ⟨"d1", "rtsp://cam", "active", none, some 5, 40007, none⟩)], ["d1"]⟩
        ⟨[("d1", ["p1"])], []⟩ (register_stream HMState.init "d1" "p1")
        ⟨[⟨"s1", "d1", StreamStateV.live, "t1", "p1", 5⟩],
         [⟨"s1", "p1", "t1", some 5, ProducerStateV.active⟩]⟩).db.streams.filter
      (fun srow => srow.cameraId = "d1")).length ≤ 1 ∧
    (∀ srow ∈ (stop_device_stream
        (World.mk ⟨[("d1", ⟨"d1", "rtsp://cam", "active", none, some 5, 40007, none⟩)], ["d1"]⟩
          ⟨[("d1", ["p1"])], []⟩ (register_stream HMState.init "d1" "p1")
          ⟨[⟨"s1", "d1", StreamStateV.live, "t1", "p1", 5⟩],
           [⟨"s1", "p1", "t1", some 5, ProducerStateV.active⟩]⟩) "d1" true).1.db.streams,
      srow.cameraId = "d1" → srow.state = StreamStateV.stopped) ∧
    lookupK (stop_device_stream
        (World.mk ⟨[("d1", ⟨"d1", "rtsp://cam", "active", none, some 5, 40007, none⟩)], ["d1"]⟩
          ⟨[("d1", ["p1"])], []⟩ (register_stream HMState.init "d1" "p1")
          ⟨[⟨"s1", "d1", StreamStateV.live, "t1", "p1", 5⟩],
           [⟨"s1", "p1", "t1", some 5, ProducerStateV.active⟩]⟩) "d1" true).1.pipeline.activeStreams
      "d1" = none := by
  refine ⟨by decide, ?_, ?_⟩
  · exact (c6_stop_postcondition
      (World.mk ⟨[("d1", ⟨"d1", "rtsp://cam", "active", none, some 5, 40007, none⟩)], ["d1"]⟩
        ⟨[("d1", ["p1"])], []⟩ (register_stream HMState.init "d1" "p1")
        ⟨[⟨"s1", "d1", StreamStateV.live, "t1", "p1", 5⟩],
         [⟨"s1", "p1", "t1", some 5, ProducerStateV.active⟩]⟩) "d1" true (by decide)).1
  · exact (c6_stop_postcondition
      (World.mk ⟨[("d1", ⟨"d1", "rtsp://cam", "active", none, some 5, 40007, none⟩)], ["d1"]⟩
        ⟨[("d1", ["p1"])], []⟩ (register_stream HMState.init "d1" "p1")
        ⟨[⟨"s1", "d1", StreamStateV.live, "t1", "p1", 5⟩],
         [⟨"s1", "p1", "t1", some 5, ProducerStateV.active⟩]⟩) "d1" true (by decide)).2.2.1

/-- Counterexample for C6 as stated: camera `"d1"`'s producer `"p1"` is
registered with the health monitor; after a successful Stop the monitor's
producer-keyed packet-count entry for `"p1"` is still present (the route
unregisters with no producer id), so the health monitor retains an entry
belonging to the stopped camera and still reports one monitored
producer. -/
theorem c6_counterexample :
    lookupK ((stop_device_stream
      (World.mk ⟨[("d1", ⟨"d1", "rtsp://cam", "active", none, some 5, 40007, none⟩)], ["d1"]⟩
        ⟨[("d1", ["p1"])], []⟩ (register_stream HMState.init "d1" "p1")
        ⟨[⟨"s1", "d1", StreamStateV.live, "t1", "p1", 5⟩],
         [⟨"s1", "p1", "t1", some 5, ProducerStateV.active⟩]⟩) "d1"
      true).1).monitor.lastPacketCounts "p1" = some 0 ∧
    get_status_monitored_producers ((stop_device_stream
      (World.mk ⟨[("d1", ⟨"d1", "rtsp://cam", "active", none, some 5, 40007, none⟩)], ["d1"]⟩
        ⟨[("d1", ["p1"])], []⟩ (register_stream HMState.init "d1" "p1")
        ⟨[⟨"s1", "d1", StreamStateV.live, "t1", "p1", 5⟩],
         [⟨"s1", "p1", "t1", some 5, ProducerStateV.active⟩]⟩) "d1"
      true).1).monitor = 1 := by
  refine ⟨by decide, by decide⟩

/-- C1 (amended): when the camera's room is already in `active_streams` and
the router still reports at least one producer for it (and the producer
query does not raise), the second Start short-circuits: it returns
`reconnect = true` with the last existing producer id, touches neither the
pipeline registry, the router state, the health monitor nor the stream
table, and at most appends one ACTIVE `Producer` row (exactly when a stream
row exists with no ACTIVE producer row).  The returned transport id is the
one stored in the in-memory stream info — which the pipeline never
populates, so it is the `"unknown"` placeholder rather than the transport
id the first Start returned. -/
theorem c1_start_reconnect (w : World) (deviceId rtspUrl : String)
    (env : StartEnv) (info : StreamInfo)
    (hActive : lookupK w.pipeline.activeStreams deviceId = some info)
    (hNoRaise : env.getProducersRaises = false)
    (hProds : router_get_producers w.router deviceId ≠ []) :
    (start_device_stream w deviceId rtspUrl env).2 =
      .ok ⟨deviceId, deviceId, info.transportId.getD "unknown",
        (router_get_producers w.router deviceId).getLastD "unknown", true,
        (db_stream_for_camera w.db deviceId).map (fun vs => vs.id)⟩ ∧
    (start_device_stream w deviceId rtspUrl env).1.pipeline = w.pipeline ∧
    (start_device_stream w deviceId rtspUrl env).1.router = w.router ∧
    (start_device_stream w deviceId rtspUrl env).1.monitor = w.monitor ∧
    (start_device_stream w deviceId rtspUrl env).1.db.streams = w.db.streams ∧
    (start_device_stream w deviceId rtspUrl env).1.db.producers =
      (match db_stream_for_camera w.db deviceId with
       | some vs =>
         if !db_has_active_producer w.db vs.id then
           w.db.producers ++
             [⟨vs.id, (router_get_producers w.router deviceId).getLastD "",
               info.transportId.getD "unknown", info.ssrc, ProducerStateV.active⟩]
         else w.db.producers
       | none => w.db.producers) := by
  have hne : (router_get_producers w.router deviceId).isEmpty = false := by
    cases h : router_get_producers w.router deviceId with
    | nil => exact absurd h hProds
    | cons a l => rfl
  simp only [start_device_stream, hActive, hNoRaise, Bool.false_eq_true,
    if_false, hne]
  cases hvs : db_stream_for_camera w.db deviceId with
  | none => simp [hvs]
  | some vs =>
    by_cases hact : db_has_active_producer w.db vs.id
    · simp [hvs, hact]
    · simp [hvs, hact]

/-- Witness for C1 on a concrete world with an active session for `"d1"`,
one router producer `"p1"`, a stream row and no ACTIVE producer row. -/
theorem c1_witness :
    lookupK (World.mk
        ⟨[("d1", ⟨"d1", "rtsp://cam", "active", none, some 5, 40007, none⟩)], ["d1"]⟩
        ⟨[("d1", ["p1"])], []⟩ HMState.init
        ⟨[⟨"s1", "d1", StreamStateV.live, "t1", "p1", 5⟩], []⟩).pipeline.activeStreams
      "d1" = some ⟨"d1", "rtsp://cam", "active", none, some 5, 40007, none⟩ ∧
    (start_device_stream (World.mk
        ⟨[("d1", ⟨"d1", "rtsp://cam", "active", none, some 5, 40007, none⟩)], ["d1"]⟩
        ⟨[("d1", ["p1"])], []⟩ HMState.init
        ⟨[⟨"s1", "d1", StreamStateV.live, "t1", "p1", 5⟩], []⟩) "d1" "rtsp://cam"
      ⟨false, true, true, 7, some 5, .spawned none, some "t2", true, some "p2",
        true, true, "s9"⟩).2 =
      .ok ⟨"d1", "d1",
        (Option.getD (none : Option String) "unknown"),
        (["p1"] : List String).getLastD "unknown", true, some "s1"⟩ := by
  refine ⟨by decide, ?_⟩
  exact (c1_start_reconnect (World.mk
      ⟨[("d1", ⟨"d1", "rtsp://cam", "active", none, some 5, 40007, none⟩)], ["d1"]⟩
      ⟨[("d1", ["p1"])], []⟩ HMState.init
      ⟨[⟨"s1", "d1", StreamStateV.live, "t1", "p1", 5⟩], []⟩) "d1" "rtsp://cam"
    ⟨false, true, true, 7, some 5, .spawned none, some "t2", true, some "p2",
      true, true, "s9"⟩
    ⟨"d1", "rtsp://cam", "active", none, some 5, 40007, none⟩
    (by decide) (by decide) (by decide)).1

/-- The environment used by the C1 and C2 counterexamples: every external
call succeeds, the router hands out transport `"t1"` and producer `"p1"`,
and the SSRC capture returns 3735928559. -/
def cexEnv : StartEnv :=
  ⟨false, true, true, 7, some 3735928559, .spawned none, some "t1", true,
   some "p1", true, true, "s1"⟩

/-- The empty initial world used by the counterexamples. -/
def cexW0 : World := ⟨⟨[], []⟩, ⟨[], []⟩, HMState.init, ⟨[], []⟩⟩

/-- Counterexample for C1 as stated: a first Start on an empty world
returns transport id `"t1"`; the session is then active and the router
reports producer `"p1"`, so a second Start short-circuits with
`reconnect = true` and the same producer id — but its returned transport id
is the placeholder `"unknown"`, not the `"t1"` of the first response: the
returned transport id is changed. -/
theorem c1_counterexample :
    (start_device_stream cexW0 "d1" "rtsp://cam" cexEnv).2 =
      .ok ⟨"d1", "d1", "t1", "p1", false, some "s1"⟩ ∧
    (lookupK (start_device_stream cexW0 "d1" "rtsp://cam"
      cexEnv).1.pipeline.activeStreams "d1").isSome = true ∧
    router_get_producers (start_device_stream cexW0 "d1" "rtsp://cam"
      cexEnv).1.router "d1" = ["p1"] ∧
    (start_device_stream (start_device_stream cexW0 "d1" "rtsp://cam"
      cexEnv).1 "d1" "rtsp://cam" cexEnv).2 =
      .ok ⟨"d1", "d1", "unknown", "p1", true, some "s1"⟩ ∧
    ("unknown" : String) ≠ "t1" := by
  refine ⟨by decide, by decide, by decide, by decide, by decide⟩

/-- C2 (amended): when Start runs the full path on a camera with no active
session and the transcoder pipeline launches successfully, a failure of any
later router step — transport creation, producer creation or transport
connect — makes Start return an HTTP error, but the pipeline's
active-stream entry for the camera is still present when the call returns:
the failed Start does not remove it (only a later Stop, or the fall-through
of a subsequent Start whose producer query raises, cleans it up). -/
theorem c2_failed_start_keeps_registry_entry (w : World)
    (deviceId rtspUrl : String) (env : StartEnv)
    (hNotActive : lookupK w.pipeline.activeStreams deviceId = none)
    (hSpawn : env.spawn = .spawned none)
    (hFail : env.createTransport = none ∨ env.createProducer = none ∨
      env.connectOk = false) :
    (∃ code msg, (start_device_stream w deviceId rtspUrl env).2 =
      .httpError code msg) ∧
    (lookupK (start_device_stream w deviceId rtspUrl env).1.pipeline.activeStreams
      deviceId).isSome = true := by
  have hstep :
      pipeline_start_stream w.pipeline deviceId rtspUrl none env.portHash env.spawn =
        ({ activeStreams := setK w.pipeline.activeStreams deviceId
             ⟨deviceId, rtspUrl, "active", none, none,
               get_ffmpeg_source_port env.portHash, none⟩
           ffmpegProcs := insertSet deviceId w.pipeline.ffmpegProcs },
         ⟨deviceId, rtspUrl, "active", none, none,
           get_ffmpeg_source_port env.portHash, none⟩) := by
    rw [hSpawn]
    simp [pipeline_start_stream, hNotActive]
  have hsome : (lookupK (setK w.pipeline.activeStreams deviceId
      (⟨deviceId, rtspUrl, "active", none, none,
        get_ffmpeg_source_port env.portHash, none⟩ : StreamInfo))
      deviceId).isSome = true := by
    rw [lookupK_setK_self]
    rfl
  simp only [start_device_stream, hNotActive, start_stream_full, hstep]
  rcases hFail with hT | hP | hC
  · rw [hT]
    exact ⟨⟨503, "MEDIASOUP_ERROR", by simp⟩, by simpa using hsome⟩
  · cases hTr : env.createTransport with
    | none =>
      exact ⟨⟨503, "MEDIASOUP_ERROR", by simp⟩, by simpa using hsome⟩
    | some tid =>
      rw [hP]
      exact ⟨⟨503, "MEDIASOUP_ERROR", by simp⟩, by simpa using hsome⟩
  · cases hTr : env.createTransport with
    | none =>
      exact ⟨⟨503, "MEDIASOUP_ERROR", by simp⟩, by simpa using hsome⟩
    | some tid =>
      cases hPr : env.createProducer with
      | none =>
        exact ⟨⟨503, "MEDIASOUP_ERROR", by simp⟩, by simpa using hsome⟩
      | some pid =>
        rw [hC]
        exact ⟨⟨503, "MEDIASOUP_ERROR", by simp⟩, by simpa using hsome⟩

/-- The environment for the C2 counterexample and witness: the pipeline
launches, then `create_plain_rtp_transport` fails. -/
def c2env : StartEnv :=
  ⟨false, true, true, 7, some 3735928559, .spawned none, none, true,
   some "p1", true, true, "s1"⟩

/-- Witness for C2 on the empty world with a failing transport creation. -/
theorem c2_witness :
    lookupK cexW0.pipeline.activeStreams "d1" = none ∧
    c2env.spawn = .spawned none ∧
    (c2env.createTransport = none ∨ c2env.createProducer = none ∨
      c2env.connectOk = false) ∧
    ((∃ code msg, (start_device_stream cexW0 "d1" "rtsp://cam" c2env).2 =
        .httpError code msg) ∧
     (lookupK (start_device_stream cexW0 "d1" "rtsp://cam"
        c2env).1.pipeline.activeStreams "d1").isSome = true) :=
  ⟨by decide, by decide, Or.inl (by decide),
   c2_failed_start_keeps_registry_entry cexW0 "d1" "rtsp://cam" c2env
     (by decide) (by decide) (Or.inl (by decide))⟩

/-- Counterexample for C2 as stated: on an empty world, Start launches the
pipeline and then `create_plain_rtp_transport` fails; Start returns an HTTP
error, yet the active-session registry still holds the entry for camera
`"d1"` at the moment the call returns — the failed Start did not remove
it. -/
theorem c2_counterexample :
    (start_device_stream cexW0 "d1" "rtsp://cam" c2env).2 =
      .httpError 503 "MEDIASOUP_ERROR" ∧
    (lookupK (start_device_stream cexW0 "d1" "rtsp://cam"
      c2env).1.pipeline.activeStreams "d1").isSome = true := by
  refine ⟨by decide, by decide⟩

/-- Fidelity checks of the `strptime` embedding on the boundary cases:
calendar-invalid eight-digit names (November 31, February 30, February 29
of a non-leap year, year 0) do not parse and are therefore skipped by the
prune, the leap-day of a leap year parses, and six- and seven-digit names
with one-digit month or day parse the way CPython's regex does. -/
theorem parseYYYYMMDD_strptime_boundary :
    parseYYYYMMDD "20231131" = none ∧
    parseYYYYMMDD "20200230" = none ∧
    parseYYYYMMDD "20230229" = none ∧
    parseYYYYMMDD "20240229" = some 20240229 ∧
    parseYYYYMMDD "00000101" = none ∧
    parseYYYYMMDD "2020011" = some 20200101 ∧
    parseYYYYMMDD "202011" = some 20200101 ∧
    parseYYYYMMDD "2020111" = some 20201101 ∧
    parseYYYYMMDD "20201" = none ∧
    parseYYYYMMDD "20200101" = some 20200101 := by
  refine ⟨by decide, by decide, by decide, by decide, by decide, by decide,
    by decide, by decide, by decide, by decide⟩
